import Mathlib

/-!
Shallow embedding of the two map-generation pipelines of the repository
nyc_air_quality_public_health_corr:
  src/disp_borough_map.py  (borough-level pipeline)
  src/disp_zip3_map.py     (ZIP3-level pipeline)

Numeric columns are modelled as exact rationals.  The pandas division used
for the asthma rate follows IEEE float semantics at zero denominators
(finite/0 is a signed infinity when the numerator is nonzero, NaN when it
is zero); that is captured by the PFloat type below.  Tabular data is
modelled as lists of structures, pandas groupby as grouping by the sorted
list of distinct keys (pandas sorts group keys ascending by default), and
pandas merge as the flatMap-style join leftMerge below.
-/

/-- Result of a pandas float division: a finite rational, a signed
infinity, or NaN.  Mirrors IEEE-754 special values produced by numpy. -/
inductive PFloat where
  | val : ℚ → PFloat
  | posInf : PFloat
  | negInf : PFloat
  | nan : PFloat
deriving DecidableEq

/-- Division as performed by a pandas Series: finite quotient when the
denominator is nonzero; at a zero denominator, a signed infinity for a
nonzero numerator and NaN for 0/0.  No exception is ever raised. -/
def pdivPF (a p : ℚ) : PFloat :=
  if p = 0 then
    (if 0 < a then PFloat.posInf else if a < 0 then PFloat.negInf else PFloat.nan)
  else
    PFloat.val (a / p)

/-- Multiplication of a pandas float by the finite constant 10000:
infinities and NaN are absorbing, finite values scale. -/
def pmul10000 : PFloat → PFloat
  | PFloat.val q => PFloat.val (q * 10000)
  | x => x

/-- Embeds the derived-rate computation
(Asthma_Count_sum / Population_sum) * 10000 of
src/disp_borough_map.py lines 72-74. -/
def rateOf (a p : ℚ) : PFloat := pmul10000 (pdivPF a p)

/-- Sum of a numeric column over a group of rows (pandas agg sum). -/
def colSum {α : Type} (g : List α) (f : α → ℚ) : ℚ := (g.map f).sum

/-- Arithmetic mean of a numeric column over a group of rows
(pandas agg mean): sum divided by the group size. -/
def colMean {α : Type} (g : List α) (f : α → ℚ) : ℚ :=
  colSum g f / (g.length : ℚ)

/-- Distinct group keys in ascending order, as produced by pandas
groupby (sort=True by default). -/
def groupKeys (l : List String) : List String :=
  List.insertionSort (fun a b => a ≤ b) l.dedup

/-- Embedding of a pandas left merge: every left row is kept; a left row
with no key match contributes one output row with a null (none) right
part, and a left row with matches contributes one output row per
matching right row. -/
def leftMerge {α β K : Type} [DecidableEq K]
    (ls : List α) (rs : List β) (kl : α → K) (kr : β → K) :
    List (α × Option β) :=
  ls.flatMap (fun a =>
    let ms := rs.filter (fun b => kr b = kl a)
    if ms.isEmpty then [(a, none)] else ms.map (fun b => (a, some b)))

/-- Outcome of a Python call: a normal return value or a raised
exception carrying its description. -/
inductive PyResult (α : Type) where
  | ok : α → PyResult α
  | exn : String → PyResult α
deriving DecidableEq

/-- Outcome of a main() run in either pipeline: completed all stages, or
returned early after the geospatial stage with a printed diagnostic. -/
inductive MainResult where
  | completed : MainResult
  | abortedGeoStage : String → MainResult
deriving DecidableEq

namespace Borough

/-- Raw row of final_dataset.csv as loaded by pandas in
src/disp_borough_map.py: every column is nullable (NaN modelled as
none). -/
structure RawRow where
  UHF42 : Option ℤ
  Population : Option ℚ
  NO2 : Option ℚ
  O3 : Option ℚ
  Asthma_Count : Option ℚ
deriving DecidableEq

/-- Row surviving the cleaning step: the four required columns are
present and Asthma_Count has been filled. -/
structure CleanRow where
  UHF42 : ℤ
  Population : ℚ
  NO2 : ℚ
  O3 : ℚ
  Asthma_Count : ℚ
deriving DecidableEq

/-- Embeds get_borough_from_uhf of src/disp_borough_map.py lines 24-38:
maps a UHF42 code to a borough name by fixed numeric ranges. -/
def get_borough_from_uhf (uhf : ℤ) : String :=
  if 101 ≤ uhf ∧ uhf ≤ 107 then "Bronx"
  else if 201 ≤ uhf ∧ uhf ≤ 211 then "Brooklyn"
  else if 301 ≤ uhf ∧ uhf ≤ 310 then "Manhattan"
  else if 401 ≤ uhf ∧ uhf ≤ 410 then "Queens"
  else if 501 ≤ uhf ∧ uhf ≤ 504 then "Staten Island"
  else "Unknown"

/-- Embeds the cleaning of lines 52-53 of src/disp_borough_map.py for a
single row: Asthma_Count.fillna(0) followed by
dropna(subset=[UHF42, Population, NO2, O3]). -/
def cleanRow (r : RawRow) : Option CleanRow :=
  match r.UHF42, r.Population, r.NO2, r.O3 with
  | some u, some p, some n, some o =>
      some { UHF42 := u, Population := p, NO2 := n, O3 := o,
             Asthma_Count := r.Asthma_Count.getD 0 }
  | _, _, _, _ => none

/-- Cleaning applied to the whole dataframe. -/
def clean (rows : List RawRow) : List CleanRow := rows.filterMap cleanRow

/-- Rows kept for aggregation: derived borough is not Unknown
(line 57 of src/disp_borough_map.py). -/
def keptRows (df : List CleanRow) : List CleanRow :=
  df.filter (fun r => get_borough_from_uhf r.UHF42 ≠ "Unknown")

/-- Group of rows aggregated under one borough key. -/
def groupRows (df : List CleanRow) (b : String) : List CleanRow :=
  (keptRows df).filter (fun r => get_borough_from_uhf r.UHF42 = b)

/-- One aggregated output row of prepare_borough_data. -/
structure BoroughSummary where
  Borough : String
  NO2_avg : ℚ
  O3_avg : ℚ
  Population_sum : ℚ
  Asthma_Count_sum : ℚ
  asthma_rate : PFloat
deriving DecidableEq

/-- Aggregation of one borough group: mean pollutant levels, summed
population and asthma counts, and the rate derived from the sums
(lines 60-74 of src/disp_borough_map.py). -/
def mkSummary (df : List CleanRow) (b : String) : BoroughSummary :=
  { Borough := b
    NO2_avg := colMean (groupRows df b) (fun r => r.NO2)
    O3_avg := colMean (groupRows df b) (fun r => r.O3)
    Population_sum := colSum (groupRows df b) (fun r => r.Population)
    Asthma_Count_sum := colSum (groupRows df b) (fun r => r.Asthma_Count)
    asthma_rate := rateOf (colSum (groupRows df b) (fun r => r.Asthma_Count))
                          (colSum (groupRows df b) (fun r => r.Population)) }

/-- Aggregated borough table computed from cleaned rows: one summary per
distinct non-Unknown borough key, keys in ascending order. -/
def borough_summary_of (df : List CleanRow) : List BoroughSummary :=
  (groupKeys ((keptRows df).map (fun r => get_borough_from_uhf r.UHF42))).map
    (mkSummary df)

/-- Embeds prepare_borough_data of src/disp_borough_map.py lines 41-78:
clean, derive boroughs, drop Unknown, group and aggregate. -/
def prepare_borough_data (rows : List RawRow) : List BoroughSummary :=
  borough_summary_of (clean rows)

/-- Borough polygon feature of resources/boroughs.geojson: identified by
its name attribute (geometry is irrelevant to the merge logic). -/
structure BPolygon where
  name : String
deriving DecidableEq

/-- Embeds the merge of src/disp_borough_map.py lines 92-94: left join of
the polygon table against the summary table on name = Borough. -/
def geo_merge (polys : List BPolygon) (df : List BoroughSummary) :
    List (BPolygon × Option BoroughSummary) :=
  leftMerge polys df (fun p => p.name) (fun s => s.Borough)

/-- Embeds prepare_geospatial_data of src/disp_borough_map.py lines
81-96: the argument holds some polygons when gpd.read_file succeeded and
none when it raised (the except branch prints and returns None). -/
def prepare_geospatial_data (loaded : Option (List BPolygon))
    (df : List BoroughSummary) :
    Option (List (BPolygon × Option BoroughSummary)) :=
  match loaded with
  | none => none
  | some polys => some (geo_merge polys df)

/-- Embeds the control flow of main in src/disp_borough_map.py lines
210-279: when the geospatial stage returns None, main prints a
diagnostic and returns normally; otherwise it renders all maps. -/
def main (loaded : Option (List BPolygon)) (rows : List RawRow) :
    PyResult MainResult :=
  let borough_data := prepare_borough_data rows
  match prepare_geospatial_data loaded borough_data with
  | none =>
      PyResult.ok (MainResult.abortedGeoStage
        "Exiting due to geospatial data loading failure.")
  | some _ => PyResult.ok MainResult.completed

end Borough

namespace Zip3

/-- Row of the UHF42-level dataset final_df.pkl used by prepare_data in
src/disp_zip3_map.py (columns the aggregation reads). -/
structure UHFRow where
  UHF42 : ℤ
  NO2 : ℚ
  O3 : ℚ
  Population : ℚ
deriving DecidableEq

/-- One parsed row of the embedded UHF42-to-ZIP3 lookup table
UHF_TO_ZIP3_MAP_DATA; zip3 is numeric as parsed by read_csv. -/
structure MapEntry where
  UHF42 : ℤ
  zip3 : ℕ
deriving DecidableEq

/-- Embeds the literal table UHF_TO_ZIP3_MAP_DATA of
src/disp_zip3_map.py lines 20-63 after read_csv parsing. -/
def zip3_map : List MapEntry :=
  [⟨101, 104⟩, ⟨102, 104⟩, ⟨103, 104⟩, ⟨104, 104⟩, ⟨105, 104⟩,
   ⟨106, 104⟩, ⟨107, 104⟩,
   ⟨201, 112⟩, ⟨202, 111⟩, ⟨203, 111⟩, ⟨204, 112⟩, ⟨205, 112⟩,
   ⟨206, 111⟩, ⟨207, 111⟩, ⟨208, 112⟩, ⟨209, 111⟩, ⟨210, 111⟩,
   ⟨211, 112⟩,
   ⟨301, 100⟩, ⟨302, 100⟩, ⟨303, 100⟩, ⟨304, 100⟩, ⟨305, 101⟩,
   ⟨306, 100⟩, ⟨307, 100⟩, ⟨308, 100⟩, ⟨309, 100⟩, ⟨310, 102⟩,
   ⟨401, 111⟩, ⟨402, 113⟩, ⟨403, 113⟩, ⟨404, 113⟩, ⟨405, 113⟩,
   ⟨406, 113⟩, ⟨407, 114⟩, ⟨408, 114⟩, ⟨409, 110⟩, ⟨410, 116⟩,
   ⟨501, 103⟩, ⟨502, 103⟩, ⟨503, 103⟩, ⟨504, 103⟩]

/-- Embeds the inner merge of final_df with the mapping table on UHF42
(line 90 of src/disp_zip3_map.py) after the zip3 column has been
converted to string (line 88): each UHF row is duplicated once per
matching mapping entry and tagged with that entry's zip3 string. -/
def innerMergeUHF (final_df : List UHFRow) (zmap : List MapEntry) :
    List (UHFRow × String) :=
  final_df.flatMap (fun r =>
    (zmap.filter (fun e => e.UHF42 = r.UHF42)).map
      (fun e => (r, toString e.zip3)))

/-- Rows aggregated under one zip3 key after the fan-out merge. -/
def groupRows (merged : List (UHFRow × String)) (z : String) :
    List UHFRow :=
  (merged.filter (fun p => p.2 = z)).map Prod.fst

/-- One aggregated row of aggregated_uhf_data in src/disp_zip3_map.py. -/
structure Zip3Summary where
  zip3 : String
  NO2_avg : ℚ
  O3_avg : ℚ
  Population_sum : ℚ
deriving DecidableEq

/-- Aggregation of one zip3 group: mean pollutant levels and summed
population (lines 91-99 of src/disp_zip3_map.py). -/
def mkSummary (merged : List (UHFRow × String)) (z : String) :
    Zip3Summary :=
  { zip3 := z
    NO2_avg := colMean (groupRows merged z) (fun r => r.NO2)
    O3_avg := colMean (groupRows merged z) (fun r => r.O3)
    Population_sum := colSum (groupRows merged z) (fun r => r.Population) }

/-- Aggregated ZIP3 table aggregated_uhf_data: one summary per distinct
zip3 key of the fan-out merge, keys in ascending order. -/
def aggregate (merged : List (UHFRow × String)) : List Zip3Summary :=
  (groupKeys (merged.map Prod.snd)).map (mkSummary merged)

/-- Embeds the groupby stage of prepare_data in src/disp_zip3_map.py
lines 87-99: fan-out merge with the mapping table, then aggregation by
zip3 string key. -/
def prepare_data_agg (final_df : List UHFRow) (zmap : List MapEntry) :
    List Zip3Summary :=
  aggregate (innerMergeUHF final_df zmap)

/-- Row of the pickled ZIP3-level asthma dataset asthma_pd.pkl (columns
the merge reads: its zip3 key and the asthma count). -/
structure AsthmaRow where
  zip3 : String
  Asthma_Count : Option ℚ
deriving DecidableEq

/-- Embeds the left merge of line 101 of src/disp_zip3_map.py producing
geo_df: asthma rows joined with the aggregated table on zip3. -/
def prepare_data (asthma_pd : List AsthmaRow) (final_df : List UHFRow)
    (zmap : List MapEntry) : List (AsthmaRow × Option Zip3Summary) :=
  leftMerge asthma_pd (prepare_data_agg final_df zmap)
    (fun a => a.zip3) (fun s => s.zip3)

/-- Row of geo_df as passed to the geospatial merge. -/
abbrev GeoRow := AsthmaRow × Option Zip3Summary

/-- Key of a geo_df row: the zip3 of its asthma part. -/
def zip3Key (g : GeoRow) : String := g.1.zip3

/-- ZCTA polygon feature of the ZIP-code GeoJSON, identified by its
postalCode attribute. -/
structure ZPolygon where
  postalCode : String
deriving DecidableEq

/-- Embeds line 117 of src/disp_zip3_map.py: the polygon zip3 key is the
first three characters of its postalCode attribute. -/
def polyZip3 (p : ZPolygon) : String := p.postalCode.take 3

/-- Embeds the merge of src/disp_zip3_map.py line 120: left join of the
polygon table against geo_df on the zip3 string keys. -/
def geo_merge (polys : List ZPolygon) (df : List GeoRow) :
    List (ZPolygon × Option GeoRow) :=
  leftMerge polys df polyZip3 zip3Key

/-- Embeds prepare_geospatial_data of src/disp_zip3_map.py lines
107-122: none when gpd.read_file raised (the except branch prints and
returns None), otherwise the merged table. -/
def prepare_geospatial_data (loaded : Option (List ZPolygon))
    (df : List GeoRow) : Option (List (ZPolygon × Option GeoRow)) :=
  match loaded with
  | none => none
  | some polys => some (geo_merge polys df)

/-- Embeds the control flow of main in src/disp_zip3_map.py lines
236-338.  Line 262 evaluates map_gdf.drop_duplicates(subset=[zip3])
BEFORE the None guard of line 280, so a None map_gdf raises
AttributeError there and the guard is never reached; when map_gdf is a
dataframe, the debug block and all renders run and main completes. -/
def main (loaded : Option (List ZPolygon)) (geo_df : List GeoRow) :
    PyResult MainResult :=
  match prepare_geospatial_data loaded geo_df with
  | none =>
      PyResult.exn
        "AttributeError: NoneType object has no attribute drop_duplicates"
  | some _ => PyResult.ok MainResult.completed

end Zip3

/-- Ascending sort of a rational column, as numpy quantile sorts its
input. -/
def sortQ (l : List ℚ) : List ℚ := List.insertionSort (fun a b => a ≤ b) l

/-- Linear-interpolation quantile of a sorted nonempty sample at
position p in [0,1], as computed by numpy (interpolation=linear):
h = p*(n-1), value = x_floor(h) + (h - floor h) * (x_ceil(h) - x_floor(h)). -/
def quantileAt (s : List ℚ) (p : ℚ) : ℚ :=
  let h : ℚ := p * ((s.length : ℚ) - 1)
  let lo : ℕ := (Rat.floor h).toNat
  let hi : ℕ := (Rat.ceil h).toNat
  let xlo := s.getD lo 0
  let xhi := s.getD hi 0
  xlo + (h - (lo : ℚ)) * (xhi - xlo)

/-- Quantile bin edges computed by pd.qcut before duplicate handling:
the q+1 quantiles of the data at positions i/q for i = 0..q. -/
def qcutBins (xs : List ℚ) (q : ℕ) : List ℚ :=
  (List.range (q + 1)).map (fun i => quantileAt (sortQ xs) ((i : ℚ) / (q : ℚ)))

/-- Bucket index assigned to a value by pd.cut over right-closed
intervals with include_lowest: the number of edges strictly below the
value, minus one (truncated at zero so the minimum lands in bucket 0). -/
def bucketOf (bins : List ℚ) (x : ℚ) : ℕ :=
  (bins.countP (fun e => decide (e < x))) - 1

/-- Result of a pd.qcut call: the per-value bucket labels, or a raised
ValueError carrying its message. -/
inductive QcutResult where
  | ok : List ℕ → QcutResult
  | valueError : String → QcutResult
deriving DecidableEq

/-- Embeds pd.qcut(xs, q, labels=range(q), duplicates=drop) as called in
plot_bivariate_map: duplicate bin edges are dropped; if fewer than q
bins remain the explicit label list no longer matches the q labels and
pandas raises ValueError; otherwise every value gets its bucket label
0..q-1. -/
def qcut (xs : List ℚ) (q : ℕ) : QcutResult :=
  if ((qcutBins xs q).dedup).length = q + 1 then
    QcutResult.ok (xs.map (bucketOf ((qcutBins xs q).dedup)))
  else
    QcutResult.valueError
      "Bin labels must be one fewer than the number of bin edges"

/-- Row of the merged dataset as seen by plot_bivariate_map: the two
selected metric columns, each nullable. -/
structure MRow where
  var1 : Option ℚ
  var2 : Option ℚ
deriving DecidableEq

/-- Rows surviving dropna(subset=[var1_col, var2_col]) at the start of
plot_bivariate_map, as pairs of present metric values. -/
def nonNullPairs (gdf : List MRow) : List (ℚ × ℚ) :=
  gdf.filterMap (fun r =>
    match r.var1, r.var2 with
    | some a, some b => some (a, b)
    | _, _ => none)

/-- Observable outcome of one plot_bivariate_map call: an early return
with a printed notice and no file written (empty data, or failed
classification), or a saved image carrying the per-row class pairs. -/
inductive PlotOutcome where
  | skippedEmpty : String → PlotOutcome
  | skippedClassify : String → PlotOutcome
  | saved : String → List (ℕ × ℕ) → PlotOutcome
deriving DecidableEq

/-- Embeds plot_bivariate_map (src/disp_borough_map.py lines 119-207 and
src/disp_zip3_map.py lines 145-233, identical logic; q is the script
constant n_quantiles resp. N_QUANTILES): drop null rows; if none remain
print a notice and return; classify both metrics with qcut, and on a
ValueError print a notice and return; otherwise save the image. -/
def plot_bivariate_map (gdf : List MRow) (q : ℕ)
    (title output_path : String) : PlotOutcome :=
  if nonNullPairs gdf = [] then
    PlotOutcome.skippedEmpty ("No data to plot for " ++ title ++ ". Skipping.")
  else
    match qcut ((nonNullPairs gdf).map Prod.fst) q,
          qcut ((nonNullPairs gdf).map Prod.snd) q with
    | QcutResult.ok q1, QcutResult.ok q2 =>
        PlotOutcome.saved output_path (q1.zip q2)
    | _, _ =>
        PlotOutcome.skippedClassify
          ("Could not classify data for bivariate map " ++ title ++ ". Skipping.")

/-- Quantile count used by the borough script (line 12 of
src/disp_borough_map.py). -/
def n_quantiles : ℕ := 2

/-- Quantile count used by the ZIP3 script (line 17 of
src/disp_zip3_map.py). -/
def N_QUANTILES : ℕ := 3

/-! ### Helper lemmas -/

lemma mem_of_mem_groupKeys {l : List String} {b : String}
    (h : b ∈ groupKeys l) : b ∈ l :=
  List.mem_dedup.mp ((List.perm_insertionSort _ _).subset h)

lemma mem_groupKeys_of_mem {l : List String} {b : String}
    (h : b ∈ l) : b ∈ groupKeys l :=
  (List.perm_insertionSort _ _).mem_iff.mpr (List.mem_dedup.mpr h)

lemma groupKeys_nodup (l : List String) : (groupKeys l).Nodup :=
  (List.perm_insertionSort _ _).nodup_iff.mpr (List.nodup_dedup l)

lemma groupKeys_perm {l₁ l₂ : List String} (h : l₁.Perm l₂) :
    groupKeys l₁ = groupKeys l₂ := by
  unfold groupKeys
  refine List.eq_of_perm_of_sorted ?_
    (List.sorted_insertionSort _ _) (List.sorted_insertionSort _ _)
  exact (List.perm_insertionSort _ _).trans
    (h.dedup.trans (List.perm_insertionSort _ _).symm)

lemma colSum_perm {α : Type} (f : α → ℚ) {g₁ g₂ : List α} (h : g₁.Perm g₂) :
    colSum g₁ f = colSum g₂ f :=
  (h.map f).sum_eq

lemma colMean_perm {α : Type} (f : α → ℚ) {g₁ g₂ : List α} (h : g₁.Perm g₂) :
    colMean g₁ f = colMean g₂ f := by
  unfold colMean
  rw [colSum_perm f h, h.length_eq]

lemma filter_key_length_le_one {β K : Type} [DecidableEq K]
    {rs : List β} {kr : β → K} (h : (rs.map kr).Nodup) (k : K) :
    (rs.filter (fun b => kr b = k)).length ≤ 1 := by
  induction rs with
  | nil => simp
  | cons b t ih =>
    simp only [List.map_cons, List.nodup_cons] at h
    by_cases hb : kr b = k
    · rw [List.filter_cons_of_pos (by simpa using hb)]
      have ht : t.filter (fun x => kr x = k) = [] := by
        refine List.filter_eq_nil_iff.mpr (fun x hx => ?_)
        simp only [decide_eq_true_eq]
        intro hxk
        exact h.1 (List.mem_map.mpr ⟨x, hx, by rw [hxk, hb]⟩)
      simp [ht]
    · rw [List.filter_cons_of_neg (by simpa using hb)]
      exact ih h.2

lemma leftMerge_cons {α β K : Type} [DecidableEq K]
    (a : α) (t : List α) (rs : List β) (kl : α → K) (kr : β → K) :
    leftMerge (a :: t) rs kl kr =
      (if (rs.filter (fun b => kr b = kl a)).isEmpty
        then [((a : α), (none : Option β))]
        else (rs.filter (fun b => kr b = kl a)).map (fun b => (a, some b))) ++
      leftMerge t rs kl kr := by
  simp only [leftMerge, List.flatMap_cons]

lemma leftMerge_piece_length_pos {α β K : Type} [DecidableEq K]
    (a : α) (rs : List β) (kl : α → K) (kr : β → K) :
    1 ≤ (if (rs.filter (fun b => kr b = kl a)).isEmpty
          then [((a : α), (none : Option β))]
          else (rs.filter (fun b => kr b = kl a)).map (fun b => (a, some b))).length := by
  by_cases he : (rs.filter (fun b => kr b = kl a)).isEmpty
  · rw [if_pos he]
    simp
  · rw [if_neg he]
    simp only [List.length_map]
    refine List.length_pos.mpr (fun hnil => he ?_)
    simp [hnil]

lemma length_leftMerge_ge {α β K : Type} [DecidableEq K]
    (ls : List α) (rs : List β) (kl : α → K) (kr : β → K) :
    ls.length ≤ (leftMerge ls rs kl kr).length := by
  induction ls with
  | nil => simp [leftMerge]
  | cons a t ih =>
    rw [leftMerge_cons, List.length_append, List.length_cons]
    have h1 := leftMerge_piece_length_pos a rs kl kr
    omega

lemma length_leftMerge_nodup {α β K : Type} [DecidableEq K]
    (ls : List α) {rs : List β} (kl : α → K) {kr : β → K}
    (h : (rs.map kr).Nodup) :
    (leftMerge ls rs kl kr).length = ls.length := by
  induction ls with
  | nil => rfl
  | cons a t ih =>
    rw [leftMerge_cons, List.length_append, List.length_cons, ih]
    have hone : (if (rs.filter (fun b => kr b = kl a)).isEmpty
          then [((a : α), (none : Option β))]
          else (rs.filter (fun b => kr b = kl a)).map (fun b => (a, some b))).length = 1 := by
      have hle := filter_key_length_le_one h (kl a)
      by_cases he : (rs.filter (fun b => kr b = kl a)).isEmpty
      · rw [if_pos he]
        rfl
      · rw [if_neg he]
        simp only [List.length_map]
        have hpos : 0 < (rs.filter (fun b => kr b = kl a)).length := by
          refine List.length_pos.mpr (fun hnil => he ?_)
          simp [hnil]
        omega
    omega

lemma leftMerge_unmatched {α β K : Type} [DecidableEq K]
    {ls : List α} {rs : List β} {kl : α → K} {kr : β → K} {a : α}
    (ha : a ∈ ls) (h : ∀ b ∈ rs, kr b ≠ kl a) :
    ((a, none) : α × Option β) ∈ leftMerge ls rs kl kr := by
  have hf : rs.filter (fun b => kr b = kl a) = [] :=
    List.filter_eq_nil_iff.mpr (fun b hb => by simpa using h b hb)
  refine List.mem_flatMap.mpr ⟨a, ha, ?_⟩
  simp [hf]

lemma leftMerge_mem_some {α β K : Type} [DecidableEq K]
    {ls : List α} {rs : List β} {kl : α → K} {kr : β → K} {a : α} {b : β} :
    ((a, some b) : α × Option β) ∈ leftMerge ls rs kl kr ↔
      a ∈ ls ∧ b ∈ rs ∧ kr b = kl a := by
  constructor
  · intro h
    obtain ⟨x, hx, hmem⟩ := List.mem_flatMap.mp h
    by_cases he : (rs.filter (fun c => kr c = kl x)).isEmpty
    · rw [if_pos he] at hmem
      simp at hmem
    · rw [if_neg he] at hmem
      obtain ⟨c, hc, heq⟩ := List.mem_map.mp hmem
      obtain ⟨hcrs, hck⟩ := List.mem_filter.mp hc
      have hxa : x = a := congrArg Prod.fst heq
      have hcb : c = b := by
        have := congrArg Prod.snd heq
        simpa using this
      subst hxa; subst hcb
      exact ⟨hx, hcrs, by simpa using hck⟩
  · rintro ⟨ha, hb, hk⟩
    refine List.mem_flatMap.mpr ⟨a, ha, ?_⟩
    have hbf : b ∈ rs.filter (fun c => kr c = kl a) :=
      List.mem_filter.mpr ⟨hb, by simpa using hk⟩
    have hne : ¬ (rs.filter (fun c => kr c = kl a)).isEmpty := by
      intro he
      rw [List.isEmpty_iff.mp he] at hbf
      cases hbf
    rw [if_neg hne]
    exact List.mem_map.mpr ⟨b, hbf, rfl⟩

lemma filterMap_erase_of_none {α β : Type} [DecidableEq α]
    (f : α → Option β) :
    ∀ (l : List α) (a : α), a ∈ l → f a = none →
      (l.erase a).filterMap f = l.filterMap f := by
  intro l a hmem hf
  induction l with
  | nil => cases hmem
  | cons x xs ih =>
    by_cases hx : x = a
    · subst hx
      rw [List.erase_cons_head]
      simp [List.filterMap_cons, hf]
    · have hxa : a ∈ xs := by
        rcases List.mem_cons.mp hmem with h | h
        · exact absurd h.symm hx
        · exact h
      rw [List.erase_cons_tail (by simpa using fun h => hx h)]
      simp only [List.filterMap_cons]
      rw [ih hxa]

lemma rateOf_of_ne_zero {a p : ℚ} (hp : p ≠ 0) :
    rateOf a p = PFloat.val (a / p * 10000) := by
  unfold rateOf pdivPF
  rw [if_neg hp]
  rfl

lemma rateOf_of_zero (a : ℚ) :
    rateOf a 0 =
      (if 0 < a then PFloat.posInf
       else if a < 0 then PFloat.negInf else PFloat.nan) := by
  unfold rateOf pdivPF
  rw [if_pos rfl]
  split
  · rfl
  · split <;> rfl

lemma borough_summary_of_mem {df : List Borough.CleanRow}
    {s : Borough.BoroughSummary} (h : s ∈ Borough.borough_summary_of df) :
    ∃ b ∈ groupKeys ((Borough.keptRows df).map
        (fun r => Borough.get_borough_from_uhf r.UHF42)),
      s = Borough.mkSummary df b := by
  obtain ⟨b, hb, hs⟩ := List.mem_map.mp h
  exact ⟨b, hb, hs.symm⟩

lemma borough_mkSummary_perm {df₁ df₂ : List Borough.CleanRow}
    (h : df₁.Perm df₂) (b : String) :
    Borough.mkSummary df₁ b = Borough.mkSummary df₂ b := by
  have hg : (Borough.groupRows df₁ b).Perm (Borough.groupRows df₂ b) :=
    (h.filter _).filter _
  unfold Borough.mkSummary
  rw [colSum_perm (fun r => r.Population) hg,
      colSum_perm (fun r => r.Asthma_Count) hg,
      colMean_perm (fun r => r.NO2) hg,
      colMean_perm (fun r => r.O3) hg]

lemma borough_summary_of_perm {df₁ df₂ : List Borough.CleanRow}
    (h : df₁.Perm df₂) :
    Borough.borough_summary_of df₁ = Borough.borough_summary_of df₂ := by
  have hk : (Borough.keptRows df₁).Perm (Borough.keptRows df₂) := h.filter _
  unfold Borough.borough_summary_of
  rw [groupKeys_perm (hk.map _)]
  rw [funext (borough_mkSummary_perm h)]

lemma zip3_mkSummary_perm {m₁ m₂ : List (Zip3.UHFRow × String)}
    (h : m₁.Perm m₂) (z : String) :
    Zip3.mkSummary m₁ z = Zip3.mkSummary m₂ z := by
  have hg : (Zip3.groupRows m₁ z).Perm (Zip3.groupRows m₂ z) :=
    (h.filter _).map _
  unfold Zip3.mkSummary
  rw [colSum_perm (fun r => r.Population) hg,
      colMean_perm (fun r => r.NO2) hg,
      colMean_perm (fun r => r.O3) hg]

lemma zip3_aggregate_perm {m₁ m₂ : List (Zip3.UHFRow × String)}
    (h : m₁.Perm m₂) : Zip3.aggregate m₁ = Zip3.aggregate m₂ := by
  unfold Zip3.aggregate
  rw [groupKeys_perm (h.map _)]
  rw [funext (zip3_mkSummary_perm h)]

set_option maxRecDepth 8000

/-! ### Claim theorems -/

/-- C1: get_borough_from_uhf maps 101-107 to Bronx, 201-211 to Brooklyn,
301-310 to Manhattan, 401-410 to Queens, 501-504 to Staten Island, every
other integer code to Unknown, and no summary row of the aggregated
borough output carries the Unknown key. -/
theorem C1_borough_derivation :
    (∀ u : ℤ, 101 ≤ u → u ≤ 107 →
      Borough.get_borough_from_uhf u = "Bronx") ∧
    (∀ u : ℤ, 201 ≤ u → u ≤ 211 →
      Borough.get_borough_from_uhf u = "Brooklyn") ∧
    (∀ u : ℤ, 301 ≤ u → u ≤ 310 →
      Borough.get_borough_from_uhf u = "Manhattan") ∧
    (∀ u : ℤ, 401 ≤ u → u ≤ 410 →
      Borough.get_borough_from_uhf u = "Queens") ∧
    (∀ u : ℤ, 501 ≤ u → u ≤ 504 →
      Borough.get_borough_from_uhf u = "Staten Island") ∧
    (∀ u : ℤ, ¬(101 ≤ u ∧ u ≤ 107) → ¬(201 ≤ u ∧ u ≤ 211) →
      ¬(301 ≤ u ∧ u ≤ 310) → ¬(401 ≤ u ∧ u ≤ 410) →
      ¬(501 ≤ u ∧ u ≤ 504) → Borough.get_borough_from_uhf u = "Unknown") ∧
    (∀ (rows : List Borough.RawRow) (s : Borough.BoroughSummary),
      s ∈ Borough.prepare_borough_data rows → s.Borough ≠ "Unknown") := by
  refine ⟨?_, ?_, ?_, ?_, ?_, ?_, ?_⟩
  · intro u h1 h2
    unfold Borough.get_borough_from_uhf
    rw [if_pos ⟨h1, h2⟩]
  · intro u h1 h2
    unfold Borough.get_borough_from_uhf
    rw [if_neg (by omega), if_pos ⟨h1, h2⟩]
  · intro u h1 h2
    unfold Borough.get_borough_from_uhf
    rw [if_neg (by omega), if_neg (by omega), if_pos ⟨h1, h2⟩]
  · intro u h1 h2
    unfold Borough.get_borough_from_uhf
    rw [if_neg (by omega), if_neg (by omega), if_neg (by omega),
        if_pos ⟨h1, h2⟩]
  · intro u h1 h2
    unfold Borough.get_borough_from_uhf
    rw [if_neg (by omega), if_neg (by omega), if_neg (by omega),
        if_neg (by omega), if_pos ⟨h1, h2⟩]
  · intro u hn1 hn2 hn3 hn4 hn5
    unfold Borough.get_borough_from_uhf
    rw [if_neg hn1, if_neg hn2, if_neg hn3, if_neg hn4, if_neg hn5]
  · intro rows s hs
    obtain ⟨b, hb, rfl⟩ := borough_summary_of_mem hs
    show b ≠ "Unknown"
    obtain ⟨r, hr, hrb⟩ := List.mem_map.mp (mem_of_mem_groupKeys hb)
    have hk := List.mem_filter.mp hr
    intro hbu
    rw [← hrb] at hbu
    simpa [hbu] using hk.2

/-- C1 witness: the derivation and the Unknown-exclusion evaluated at
concrete inputs. -/
theorem C1_borough_derivation_witness :
    Borough.get_borough_from_uhf 105 = "Bronx" ∧
    Borough.get_borough_from_uhf 207 = "Brooklyn" ∧
    Borough.get_borough_from_uhf 310 = "Manhattan" ∧
    Borough.get_borough_from_uhf 401 = "Queens" ∧
    Borough.get_borough_from_uhf 504 = "Staten Island" ∧
    Borough.get_borough_from_uhf 999 = "Unknown" ∧
    (∀ s ∈ Borough.prepare_borough_data
        [⟨some 101, some 10, some 1, some 1, some 2⟩,
         ⟨some 999, some 10, some 1, some 1, some 2⟩],
      s.Borough ≠ "Unknown") :=
  ⟨C1_borough_derivation.1 105 (by decide) (by decide),
   C1_borough_derivation.2.1 207 (by decide) (by decide),
   C1_borough_derivation.2.2.1 310 (by decide) (by decide),
   C1_borough_derivation.2.2.2.1 401 (by decide) (by decide),
   C1_borough_derivation.2.2.2.2.1 504 (by decide) (by decide),
   C1_borough_derivation.2.2.2.2.2.1 999 (by decide) (by decide)
     (by decide) (by decide) (by decide),
   fun s hs => C1_borough_derivation.2.2.2.2.2.2 _ s hs⟩

/-- C2 (amended): every aggregated borough row derives its asthma_rate
from the two sums, after summation: when the summed population P is
positive the rate is exactly (A / P) * 10000; when P = 0 the pandas
division yields NaN only for A = 0, and a signed infinity for a nonzero
summed asthma count A — in either case no exception is raised (the
embedding is total). -/
theorem C2_asthma_rate_after_summation :
    ∀ (rows : List Borough.RawRow) (s : Borough.BoroughSummary),
      s ∈ Borough.prepare_borough_data rows →
      (0 < s.Population_sum →
        s.asthma_rate =
          PFloat.val (s.Asthma_Count_sum / s.Population_sum * 10000)) ∧
      (s.Population_sum = 0 →
        s.asthma_rate =
          (if 0 < s.Asthma_Count_sum then PFloat.posInf
           else if s.Asthma_Count_sum < 0 then PFloat.negInf
           else PFloat.nan)) := by
  intro rows s hs
  obtain ⟨b, hb, rfl⟩ := borough_summary_of_mem hs
  simp only [Borough.mkSummary]
  constructor
  · intro hP
    rw [rateOf_of_ne_zero (ne_of_gt hP)]
  · intro hP
    rw [hP, rateOf_of_zero]

/-- C2 witness: the positive-population branch evaluated on a concrete
dataset (one Bronx row, population 50, asthma count 10). -/
theorem C2_asthma_rate_witness :
    ((⟨"Bronx", 1, 1, 50, 10, PFloat.val 2000⟩ : Borough.BoroughSummary) ∈
      Borough.prepare_borough_data
        [⟨some 101, some 50, some 1, some 1, some 10⟩]) ∧
    PFloat.val (2000 : ℚ) =
      PFloat.val ((10 : ℚ) / (50 : ℚ) * 10000) := by
  have hm : (⟨"Bronx", 1, 1, 50, 10, PFloat.val 2000⟩ :
      Borough.BoroughSummary) ∈ Borough.prepare_borough_data
        [⟨some 101, some 50, some 1, some 1, some 10⟩] := by
    with_unfolding_all decide
  refine ⟨hm, ?_⟩
  have h := (C2_asthma_rate_after_summation _ _ hm).1
    (by with_unfolding_all decide)
  exact h

/-- C2 counterexample: a legal input row with population 0 and asthma
count 5 produces a group with summed population 0 whose derived rate is
positive infinity, not a missing/NaN value, refuting the claim that a
zero-population group always yields a missing/NaN rate. -/
theorem C2_asthma_rate_counterexample :
    (Borough.prepare_borough_data
        [⟨some 101, some 0, some 1, some 1, some 5⟩]).map
      (fun s => (s.Population_sum, s.asthma_rate)) =
      [((0 : ℚ), PFloat.posInf)] ∧
    PFloat.posInf ≠ PFloat.nan := by
  constructor
  · with_unfolding_all decide
  · decide

/-- C9: in the borough cleaning step, a row missing UHF42, Population,
NO2 or O3 is dropped by cleanRow and removing it from the input leaves
the aggregated output unchanged (it contributes to no summary row),
while a row whose only missing value is Asthma_Count survives cleaning
with that count replaced by 0. -/
theorem C9_cleaning_rules :
    ∀ (rows : List Borough.RawRow) (r : Borough.RawRow), r ∈ rows →
      ((r.UHF42 = none ∨ r.Population = none ∨ r.NO2 = none ∨
          r.O3 = none) →
        Borough.cleanRow r = none ∧
        Borough.prepare_borough_data (rows.erase r) =
          Borough.prepare_borough_data rows) ∧
      (∀ (u : ℤ) (p n o : ℚ),
        r.UHF42 = some u → r.Population = some p → r.NO2 = some n →
        r.O3 = some o → r.Asthma_Count = none →
        ({ UHF42 := u, Population := p, NO2 := n, O3 := o,
           Asthma_Count := 0 } : Borough.CleanRow) ∈ Borough.clean rows) := by
  intro rows r hmem
  constructor
  · intro hmiss
    have hnone : Borough.cleanRow r = none := by
      obtain ⟨u, p, n, o, a⟩ := r
      simp only at hmiss
      unfold Borough.cleanRow
      rcases hmiss with h | h | h | h <;> simp_all
    refine ⟨hnone, ?_⟩
    unfold Borough.prepare_borough_data
    rw [show Borough.clean (rows.erase r) = Borough.clean rows from
      filterMap_erase_of_none _ rows r hmem hnone]
  · intro u p n o hu hp hn ho ha
    have hsome : Borough.cleanRow r =
        some ⟨u, p, n, o, 0⟩ := by
      obtain ⟨u', p', n', o', a'⟩ := r
      simp only at hu hp hn ho ha
      subst hu; subst hp; subst hn; subst ho; subst ha
      rfl
    exact List.mem_filterMap.mpr ⟨r, hmem, hsome⟩

/-- C9 witness: a row missing Population is dropped without changing the
output, and a row missing only Asthma_Count is kept with count 0. -/
theorem C9_cleaning_rules_witness :
    (Borough.cleanRow ⟨some 101, none, some 1, some 1, some 5⟩ = none ∧
     Borough.prepare_borough_data
        (([⟨some 101, none, some 1, some 1, some 5⟩,
           ⟨some 201, some 10, some 2, some 2, none⟩] :
            List Borough.RawRow).erase
          ⟨some 101, none, some 1, some 1, some 5⟩) =
       Borough.prepare_borough_data
        [⟨some 101, none, some 1, some 1, some 5⟩,
         ⟨some 201, some 10, some 2, some 2, none⟩]) ∧
    ({ UHF42 := 201, Population := 10, NO2 := 2, O3 := 2,
       Asthma_Count := 0 } : Borough.CleanRow) ∈
      Borough.clean
        [⟨some 101, none, some 1, some 1, some 5⟩,
         ⟨some 201, some 10, some 2, some 2, none⟩] := by
  refine ⟨?_, ?_⟩
  · exact (C9_cleaning_rules
      [⟨some 101, none, some 1, some 1, some 5⟩,
       ⟨some 201, some 10, some 2, some 2, none⟩]
      ⟨some 101, none, some 1, some 1, some 5⟩ (by decide)).1
      (Or.inr (Or.inl rfl))
  · exact (C9_cleaning_rules
      [⟨some 101, none, some 1, some 1, some 5⟩,
       ⟨some 201, some 10, some 2, some 2, none⟩]
      ⟨some 201, some 10, some 2, some 2, none⟩ (by decide)).2
      201 10 2 2 rfl rfl rfl rfl rfl

/-- C4: at the failing input (boundary file unreadable, i.e. the load
yields none), the borough main reports the failure and returns normally,
but the ZIP3 main raises AttributeError, because line 262 of
src/disp_zip3_map.py dereferences map_gdf before the None guard of line
280 — the code contradicts its own guard, so the claim holds for the
borough pipeline only. -/
theorem C4_geo_failure_outcomes :
    Borough.main none [] =
      PyResult.ok (MainResult.abortedGeoStage
        "Exiting due to geospatial data loading failure.") ∧
    Zip3.main none [] =
      PyResult.exn
        "AttributeError: NoneType object has no attribute drop_duplicates" :=
  ⟨rfl, rfl⟩

/-- C6: when every row has a null in at least one of the two chosen
metric columns, plot_bivariate_map takes the empty-data early return:
no output file is produced (no saved outcome), no exception is raised
(the embedding is total), and the diagnostic notice is emitted. -/
theorem C6_all_null_rows_skip :
    ∀ (gdf : List MRow) (q : ℕ) (t p : String),
      (∀ r ∈ gdf, r.var1 = none ∨ r.var2 = none) →
      plot_bivariate_map gdf q t p =
        PlotOutcome.skippedEmpty
          ("No data to plot for " ++ t ++ ". Skipping.") := by
  intro gdf q t p h
  have hnil : nonNullPairs gdf = [] := by
    refine List.filterMap_eq_nil_iff.mpr (fun r hr => ?_)
    rcases h r hr with h1 | h1
    · rw [h1]
    · rw [h1]
      cases hv : r.var1 <;> rfl
  simp [plot_bivariate_map, hnil]

/-- C6 witness: a merged dataset whose rows each miss one of the two
metrics is skipped with the notice. -/
theorem C6_all_null_rows_skip_witness :
    plot_bivariate_map [⟨none, some 1⟩, ⟨some 2, none⟩] n_quantiles
        "T" "out.png" =
      PlotOutcome.skippedEmpty
        ("No data to plot for " ++ "T" ++ ". Skipping.") :=
  C6_all_null_rows_skip _ _ _ _ (by decide)

lemma qcut_ok_of {xs : List ℚ} {q : ℕ}
    (h : ((qcutBins xs q).dedup).length = q + 1) :
    qcut xs q = QcutResult.ok (xs.map (bucketOf ((qcutBins xs q).dedup))) := by
  unfold qcut
  rw [if_pos h]

lemma qcut_err_of {xs : List ℚ} {q : ℕ}
    (h : ((qcutBins xs q).dedup).length ≠ q + 1) :
    qcut xs q = QcutResult.valueError
      "Bin labels must be one fewer than the number of bin edges" := by
  unfold qcut
  rw [if_neg h]

lemma plot_bivariate_err_fst {gdf : List MRow} {q : ℕ} {t p : String}
    (hne : nonNullPairs gdf ≠ [])
    (h : ((qcutBins ((nonNullPairs gdf).map Prod.fst) q).dedup).length ≠ q + 1) :
    plot_bivariate_map gdf q t p =
      PlotOutcome.skippedClassify
        ("Could not classify data for bivariate map " ++ t ++ ". Skipping.") := by
  unfold plot_bivariate_map
  rw [if_neg hne, qcut_err_of h]

lemma plot_bivariate_err_snd {gdf : List MRow} {q : ℕ} {t p : String}
    (hne : nonNullPairs gdf ≠ [])
    (h : ((qcutBins ((nonNullPairs gdf).map Prod.snd) q).dedup).length ≠ q + 1) :
    plot_bivariate_map gdf q t p =
      PlotOutcome.skippedClassify
        ("Could not classify data for bivariate map " ++ t ++ ". Skipping.") := by
  unfold plot_bivariate_map
  rw [if_neg hne, qcut_err_of h]
  cases hq : qcut ((nonNullPairs gdf).map Prod.fst) q <;> rfl

/-- C5 (amended): when duplicate quantile boundaries prevent forming q
distinct buckets for either metric (the deduplicated edge list is
shorter than q+1 entries), pd.qcut with its explicit q labels raises
ValueError despite duplicates=drop, and plot_bivariate_map catches it,
skips that one map with a diagnostic notice and returns without
aborting; a map is saved only when both metrics yield exactly q buckets,
so no map with fewer effective buckets is ever rendered. -/
theorem C5_classification_failure_skips :
    ∀ (gdf : List MRow) (q : ℕ) (t p : String),
      (nonNullPairs gdf ≠ [] →
        (((qcutBins ((nonNullPairs gdf).map Prod.fst) q).dedup).length ≠ q + 1 ∨
         ((qcutBins ((nonNullPairs gdf).map Prod.snd) q).dedup).length ≠ q + 1) →
        plot_bivariate_map gdf q t p =
          PlotOutcome.skippedClassify
            ("Could not classify data for bivariate map " ++ t ++
              ". Skipping.")) ∧
      (∀ (path : String) (cls : List (ℕ × ℕ)),
        plot_bivariate_map gdf q t p = PlotOutcome.saved path cls →
        ((qcutBins ((nonNullPairs gdf).map Prod.fst) q).dedup).length = q + 1 ∧
        ((qcutBins ((nonNullPairs gdf).map Prod.snd) q).dedup).length = q + 1) := by
  intro gdf q t p
  constructor
  · intro hne hd
    rcases hd with hd | hd
    · exact plot_bivariate_err_fst hne hd
    · exact plot_bivariate_err_snd hne hd
  · intro path cls hsave
    by_cases hemp : nonNullPairs gdf = []
    · rw [plot_bivariate_map, if_pos hemp] at hsave
      cases hsave
    · constructor
      · by_contra h1
        rw [plot_bivariate_err_fst hemp h1] at hsave
        cases hsave
      · by_contra h2
        rw [plot_bivariate_err_snd hemp h2] at hsave
        cases hsave

/-- C5 witness: a metric column with only duplicate values makes qcut
raise and the map is skipped with the notice. -/
theorem C5_classification_failure_witness :
    plot_bivariate_map [⟨some 1, some 1⟩, ⟨some 1, some 2⟩] 2
        "T" "out.png" =
      PlotOutcome.skippedClassify
        ("Could not classify data for bivariate map " ++ "T" ++
          ". Skipping.") :=
  (C5_classification_failure_skips _ 2 "T" "out.png").1
    (by with_unfolding_all decide)
    (Or.inl (by with_unfolding_all decide))

/-- C5 counterexample: on a duplicate-heavy metric column the
classification does not degrade to fewer effective buckets — qcut raises
ValueError (labels no longer match the deduplicated edges) and the whole
map is skipped, refuting the graceful-degradation half of the claim. -/
theorem C5_no_graceful_degradation_counterexample :
    qcut [1, 1, 1, 1] 2 =
      QcutResult.valueError
        "Bin labels must be one fewer than the number of bin edges" ∧
    plot_bivariate_map
      [⟨some 1, some 1⟩, ⟨some 1, some 2⟩, ⟨some 1, some 3⟩,
       ⟨some 1, some 4⟩] n_quantiles "T" "out.png" =
      PlotOutcome.skippedClassify
        ("Could not classify data for bivariate map " ++ "T" ++
          ". Skipping.") := by
  constructor
  · with_unfolding_all decide
  · with_unfolding_all decide

lemma prepare_borough_keys_nodup (rows : List Borough.RawRow) :
    ((Borough.prepare_borough_data rows).map (fun s => s.Borough)).Nodup := by
  unfold Borough.prepare_borough_data Borough.borough_summary_of
  rw [List.map_map]
  have hcomp : ((fun s => s.Borough) ∘ Borough.mkSummary (Borough.clean rows)) =
      id := funext (fun b => rfl)
  rw [hcomp, List.map_id]
  exact groupKeys_nodup _

/-- C3: the geo merge of either pipeline is a true left join: its output
row count equals the polygon count whenever the attached summary table
has pairwise-distinct keys (which the aggregated borough output always
has — fourth conjunct), it is never below the polygon count for any
table, and a polygon matching no summary row is kept with an explicit
null (none) metric part. -/
theorem C3_left_join_preserves_polygons :
    (∀ (polys : List Borough.BPolygon) (df : List Borough.BoroughSummary),
      (df.map (fun s => s.Borough)).Nodup →
      (Borough.geo_merge polys df).length = polys.length) ∧
    (∀ (polys : List Borough.BPolygon) (df : List Borough.BoroughSummary),
      polys.length ≤ (Borough.geo_merge polys df).length) ∧
    (∀ (polys : List Borough.BPolygon) (df : List Borough.BoroughSummary)
        (p : Borough.BPolygon), p ∈ polys →
      (∀ s ∈ df, s.Borough ≠ p.name) →
      ((p, none) : Borough.BPolygon × Option Borough.BoroughSummary) ∈
        Borough.geo_merge polys df) ∧
    (∀ rows : List Borough.RawRow,
      ((Borough.prepare_borough_data rows).map (fun s => s.Borough)).Nodup) ∧
    (∀ (polys : List Zip3.ZPolygon) (df : List Zip3.GeoRow),
      (df.map Zip3.zip3Key).Nodup →
      (Zip3.geo_merge polys df).length = polys.length) ∧
    (∀ (polys : List Zip3.ZPolygon) (df : List Zip3.GeoRow),
      polys.length ≤ (Zip3.geo_merge polys df).length) ∧
    (∀ (polys : List Zip3.ZPolygon) (df : List Zip3.GeoRow)
        (p : Zip3.ZPolygon), p ∈ polys →
      (∀ g ∈ df, Zip3.zip3Key g ≠ Zip3.polyZip3 p) →
      ((p, none) : Zip3.ZPolygon × Option Zip3.GeoRow) ∈
        Zip3.geo_merge polys df) := by
  refine ⟨?_, ?_, ?_, ?_, ?_, ?_, ?_⟩
  · intro polys df h
    exact length_leftMerge_nodup polys (fun p => p.name) h
  · intro polys df
    exact length_leftMerge_ge polys df (fun p => p.name) (fun s => s.Borough)
  · intro polys df p hp h
    exact leftMerge_unmatched hp h
  · exact prepare_borough_keys_nodup
  · intro polys df h
    exact length_leftMerge_nodup polys Zip3.polyZip3 h
  · intro polys df
    exact length_leftMerge_ge polys df Zip3.polyZip3 Zip3.zip3Key
  · intro polys df p hp h
    exact leftMerge_unmatched hp h

/-- C3 witness: two borough polygons against a one-borough summary give
two output rows, the unmatched polygon carrying none; an empty summary
still keeps the single ZIP3 polygon. -/
theorem C3_left_join_witness :
    (Borough.geo_merge [⟨"Bronx"⟩, ⟨"Queens"⟩]
      (Borough.prepare_borough_data
        [⟨some 101, some 10, some 1, some 1, some 2⟩])).length = 2 ∧
    ((⟨"Queens"⟩, none) :
        Borough.BPolygon × Option Borough.BoroughSummary) ∈
      Borough.geo_merge [⟨"Bronx"⟩, ⟨"Queens"⟩]
        (Borough.prepare_borough_data
          [⟨some 101, some 10, some 1, some 1, some 2⟩]) ∧
    (Zip3.geo_merge [⟨"10001"⟩] ([] : List Zip3.GeoRow)).length = 1 := by
  refine ⟨?_, ?_, ?_⟩
  · exact C3_left_join_preserves_polygons.1 _ _
      (C3_left_join_preserves_polygons.2.2.2.1
        [⟨some 101, some 10, some 1, some 1, some 2⟩])
  · exact C3_left_join_preserves_polygons.2.2.1 _ _ _
      (by decide) (by with_unfolding_all decide)
  · exact C3_left_join_preserves_polygons.2.2.2.2.1 _ _ (by decide)

/-- C7: the aggregation of both pipelines (group by key, mean of
pollutant columns, sum of population and asthma columns, rate derived
from the sums) produces identical summary tables on any permutation of
the input rows. -/
theorem C7_row_order_invariance :
    (∀ (rows₁ rows₂ : List Borough.RawRow), rows₁.Perm rows₂ →
      Borough.prepare_borough_data rows₁ =
        Borough.prepare_borough_data rows₂) ∧
    (∀ (zmap : List Zip3.MapEntry) (f₁ f₂ : List Zip3.UHFRow), f₁.Perm f₂ →
      Zip3.prepare_data_agg f₁ zmap = Zip3.prepare_data_agg f₂ zmap) := by
  constructor
  · intro rows₁ rows₂ h
    exact borough_summary_of_perm (h.filterMap _)
  · intro zmap f₁ f₂ h
    exact zip3_aggregate_perm (h.flatMap_right _)

/-- C7 witness: swapping two rows leaves both aggregated outputs
unchanged. -/
theorem C7_row_order_invariance_witness :
    Borough.prepare_borough_data
      [⟨some 101, some 10, some 1, some 3, some 2⟩,
       ⟨some 201, some 20, some 5, some 7, none⟩] =
    Borough.prepare_borough_data
      [⟨some 201, some 20, some 5, some 7, none⟩,
       ⟨some 101, some 10, some 1, some 3, some 2⟩] ∧
    Zip3.prepare_data_agg [⟨101, 1, 2, 30⟩, ⟨201, 3, 4, 40⟩] Zip3.zip3_map =
    Zip3.prepare_data_agg [⟨201, 3, 4, 40⟩, ⟨101, 1, 2, 30⟩] Zip3.zip3_map :=
  ⟨C7_row_order_invariance.1 _ _ (List.Perm.swap _ _ _),
   C7_row_order_invariance.2 _ _ _ (List.Perm.swap _ _ _)⟩

lemma innerMerge_mem {final_df : List Zip3.UHFRow} {zmap : List Zip3.MapEntry}
    {r : Zip3.UHFRow} {e : Zip3.MapEntry}
    (hr : r ∈ final_df) (he : e ∈ zmap) (hu : e.UHF42 = r.UHF42) :
    (r, toString e.zip3) ∈ Zip3.innerMergeUHF final_df zmap := by
  refine List.mem_flatMap.mpr ⟨r, hr, ?_⟩
  refine List.mem_map.mpr ⟨e, ?_, rfl⟩
  exact List.mem_filter.mpr ⟨he, by simpa using hu⟩

lemma groupRows_mem_of {merged : List (Zip3.UHFRow × String)}
    {r : Zip3.UHFRow} {z : String} (h : (r, z) ∈ merged) :
    r ∈ Zip3.groupRows merged z := by
  unfold Zip3.groupRows
  refine List.mem_map.mpr ⟨(r, z), ?_, rfl⟩
  exact List.mem_filter.mpr ⟨h, by simp⟩

lemma zip3_summary_mem {merged : List (Zip3.UHFRow × String)} {z : String}
    (h : z ∈ merged.map Prod.snd) :
    Zip3.mkSummary merged z ∈ Zip3.aggregate merged :=
  List.mem_map.mpr ⟨z, mem_groupKeys_of_mem h, rfl⟩

/-- C8: a UHF42 row matching two different zip3 entries of the mapping
table lands, with its full values, in the group of each zip3 key: it is
a member of both groups, a summary row is produced for each key, and
every summary field is computed over exactly that group (so the row's
Population, NO2 and O3 enter both groups' sums and means — duplication,
not splitting). -/
theorem C8_zip3_fanout_duplication :
    ∀ (final_df : List Zip3.UHFRow) (zmap : List Zip3.MapEntry)
      (r : Zip3.UHFRow) (e₁ e₂ : Zip3.MapEntry),
      r ∈ final_df → e₁ ∈ zmap → e₂ ∈ zmap →
      e₁.UHF42 = r.UHF42 → e₂.UHF42 = r.UHF42 → e₁.zip3 ≠ e₂.zip3 →
      (r ∈ Zip3.groupRows (Zip3.innerMergeUHF final_df zmap)
          (toString e₁.zip3) ∧
       r ∈ Zip3.groupRows (Zip3.innerMergeUHF final_df zmap)
          (toString e₂.zip3)) ∧
      (Zip3.mkSummary (Zip3.innerMergeUHF final_df zmap) (toString e₁.zip3) ∈
          Zip3.prepare_data_agg final_df zmap ∧
       Zip3.mkSummary (Zip3.innerMergeUHF final_df zmap) (toString e₂.zip3) ∈
          Zip3.prepare_data_agg final_df zmap) ∧
      (∀ z : String,
        (Zip3.mkSummary (Zip3.innerMergeUHF final_df zmap) z).Population_sum =
          colSum (Zip3.groupRows (Zip3.innerMergeUHF final_df zmap) z)
            (fun x => x.Population) ∧
        (Zip3.mkSummary (Zip3.innerMergeUHF final_df zmap) z).NO2_avg =
          colMean (Zip3.groupRows (Zip3.innerMergeUHF final_df zmap) z)
            (fun x => x.NO2) ∧
        (Zip3.mkSummary (Zip3.innerMergeUHF final_df zmap) z).O3_avg =
          colMean (Zip3.groupRows (Zip3.innerMergeUHF final_df zmap) z)
            (fun x => x.O3)) := by
  intro final_df zmap r e₁ e₂ hr he₁ he₂ hu₁ hu₂ hz
  have hm₁ := innerMerge_mem hr he₁ hu₁
  have hm₂ := innerMerge_mem hr he₂ hu₂
  refine ⟨⟨groupRows_mem_of hm₁, groupRows_mem_of hm₂⟩, ⟨?_, ?_⟩, ?_⟩
  · exact zip3_summary_mem (List.mem_map.mpr ⟨_, hm₁, rfl⟩)
  · exact zip3_summary_mem (List.mem_map.mpr ⟨_, hm₂, rfl⟩)
  · intro z
    exact ⟨rfl, rfl, rfl⟩

/-- C8 witness: with a mapping table sending UHF 101 to both zip3 104
and 105, the single UHF row is a member of both groups. -/
theorem C8_zip3_fanout_witness :
    (⟨101, 2, 4, 100⟩ : Zip3.UHFRow) ∈
      Zip3.groupRows
        (Zip3.innerMergeUHF [⟨101, 2, 4, 100⟩] [⟨101, 104⟩, ⟨101, 105⟩])
        (toString (104 : ℕ)) ∧
    (⟨101, 2, 4, 100⟩ : Zip3.UHFRow) ∈
      Zip3.groupRows
        (Zip3.innerMergeUHF [⟨101, 2, 4, 100⟩] [⟨101, 104⟩, ⟨101, 105⟩])
        (toString (105 : ℕ)) := by
  have h := C8_zip3_fanout_duplication [⟨101, 2, 4, 100⟩]
    [⟨101, 104⟩, ⟨101, 105⟩] ⟨101, 2, 4, 100⟩ ⟨101, 104⟩ ⟨101, 105⟩
    (by decide) (by decide) (by decide) rfl rfl (by decide)
  exact ⟨h.1.1, h.1.2⟩

lemma prepare_data_agg_key {final_df : List Zip3.UHFRow}
    {zmap : List Zip3.MapEntry} {s : Zip3.Zip3Summary}
    (h : s ∈ Zip3.prepare_data_agg final_df zmap) :
    ∃ e ∈ zmap, s.zip3 = toString e.zip3 := by
  obtain ⟨z, hz, rfl⟩ := List.mem_map.mp h
  obtain ⟨pr, hpr, hsnd⟩ := List.mem_map.mp (mem_of_mem_groupKeys hz)
  obtain ⟨rr, hrr, hmm⟩ := List.mem_flatMap.mp hpr
  obtain ⟨e, hef, heq⟩ := List.mem_map.mp hmm
  refine ⟨e, (List.mem_filter.mp hef).1, ?_⟩
  show z = toString e.zip3
  rw [← hsnd, ← heq]

/-- C10: every key of the aggregated ZIP3 summary is the decimal string
form of a numeric mapping-table zip3 value; for the embedded table those
strings all have three characters; a polygon key is the first three
characters of its postalCode; and a geo_merge output pair joins a
polygon to a data row exactly when the three-character postal prefix
equals the data row string key. -/
theorem C10_zip3_string_key_merge :
    (∀ (final_df : List Zip3.UHFRow) (zmap : List Zip3.MapEntry)
        (s : Zip3.Zip3Summary), s ∈ Zip3.prepare_data_agg final_df zmap →
      ∃ e ∈ zmap, s.zip3 = toString e.zip3) ∧
    (∀ e ∈ Zip3.zip3_map, (toString e.zip3).length = 3) ∧
    (∀ p : Zip3.ZPolygon, Zip3.polyZip3 p = p.postalCode.take 3) ∧
    (∀ (polys : List Zip3.ZPolygon) (df : List Zip3.GeoRow)
        (p : Zip3.ZPolygon) (g : Zip3.GeoRow),
      ((p, some g) : Zip3.ZPolygon × Option Zip3.GeoRow) ∈
          Zip3.geo_merge polys df ↔
        p ∈ polys ∧ g ∈ df ∧ Zip3.zip3Key g = p.postalCode.take 3) := by
  refine ⟨?_, ?_, ?_, ?_⟩
  · intro final_df zmap s h
    exact prepare_data_agg_key h
  · decide
  · intro p
    rfl
  · intro polys df p g
    exact leftMerge_mem_some

/-- C10 witness: the summary key produced from the embedded table entry
101 to 104 is its string form, and a polygon with postalCode 10001 joins
a data row keyed 100. -/
theorem C10_zip3_string_key_witness :
    (∃ e ∈ Zip3.zip3_map,
      ((⟨"104", 2, 4, 100⟩ : Zip3.Zip3Summary).zip3 = toString e.zip3)) ∧
    (((⟨"10001"⟩, some (⟨"100", some 5⟩, none)) :
        Zip3.ZPolygon × Option Zip3.GeoRow) ∈
      Zip3.geo_merge [⟨"10001"⟩] [(⟨"100", some 5⟩, none)]) := by
  constructor
  · exact C10_zip3_string_key_merge.1 [⟨101, 2, 4, 100⟩] Zip3.zip3_map _
      (by with_unfolding_all decide)
  · exact (C10_zip3_string_key_merge.2.2.2 _ _ _ _).mpr
      ⟨by decide, by decide, by decide⟩
